import Mathlib
set_option maxRecDepth 8192

/-!
Verification of the Battleship protocol and game logic
(`protocol.py`, `battleship.py`) via a shallow embedding in Lean 4.

Conventions:
* Python `bytes` become `List Nat` with every element `< 256`.
* Python `int` arithmetic with `%` becomes `Int.emod` (both yield the
  nonnegative representative for a positive modulus).
* The AES-CTR stream cipher from the `Cryptodome` library is modelled by an
  abstract keystream `ks : Nat → Nat → Nat` giving the keystream byte at a
  given (sequence number, byte index); AES-CTR encryption and decryption are
  both exactly the XOR of the data with this keystream, which depends only on
  the fixed shared key and the sequence-number-derived counter.
-/

namespace BattleshipProto

/-- Packet type constants from `PACKET_TYPES` in `protocol.py`. -/
def GAME_UPDATE : Nat := 1

def PLAYER_MOVE : Nat := 2

def BOARD_UPDATE : Nat := 3

def CHAT_MESSAGE : Nat := 4

def SYSTEM_MESSAGE : Nat := 5

def RETRANSMISSION_REQUEST : Nat := 6

def ACK : Nat := 7

def GAME_STATE : Nat := 8

/-- `MAX_RETRIES` constant from `protocol.py`. -/
def MAX_RETRIES : Nat := 2

/-- The keystream of the AES-CTR cipher keyed by `SHARED_SECRET_KEY`, as a
function of the sequence number (which determines the counter initial value)
and the byte index. The concrete AES block computations are outside the
repository; theorems quantify over the keystream. -/
abbrev Keystream := Nat → Nat → Nat

/-- XOR a byte list with the keystream for sequence `s`, starting at byte
index `i`. This is what both `cipher.encrypt` and `cipher.decrypt` of an
AES-CTR cipher do to their input. -/
def ctrXor (ks : Keystream) (s : Nat) : Nat → List Nat → List Nat
  | _, [] => []
  | i, b :: rest => (b ^^^ ks s i) :: ctrXor ks s (i + 1) rest

/-- `encrypt_payload` from `protocol.py`: encrypt with the AES-CTR cipher
whose counter is derived from `sequence_num`. -/
def encrypt_payload (ks : Keystream) (payload : List Nat) (sequence_num : Nat) :
    List Nat :=
  ctrXor ks sequence_num 0 payload

/-- `decrypt_payload` from `protocol.py`: identical keystream XOR. -/
def decrypt_payload (ks : Keystream) (payload : List Nat) (sequence_num : Nat) :
    List Nat :=
  ctrXor ks sequence_num 0 payload

/-- The state of `ReplayWindow` from `protocol.py`: `window_size` (64 by
default), `latest_seq` (a Python int, initially `-1`), the `bitmask` of
seen sequences (an unbounded Python int), and the `pending` set of sequence
numbers seen but not yet acknowledged (modelled as a duplicate-free list). -/
structure ReplayWindow where
  window_size : Nat
  latest_seq : Int
  bitmask : Nat
  pending : List Nat
  deriving Repr, DecidableEq

/-- `ReplayWindow.__init__(size=64)`. -/
def ReplayWindow.init (size : Nat := 64) : ReplayWindow :=
  { window_size := size, latest_seq := -1, bitmask := 0, pending := [] }

/-- `ReplayWindow.mark_acknowledged`: set the bitmask bit at the offset of
`seq` behind `latest_seq` when within the window, and drop `seq` from
`pending`. -/
def ReplayWindow.mark_acknowledged (w : ReplayWindow) (seq : Nat) :
    ReplayWindow :=
  let offset := (w.latest_seq - (seq : Int)) % 256
  let bitmask :=
    if offset < (w.window_size : Int) then w.bitmask ||| (1 <<< offset.toNat)
    else w.bitmask
  { w with bitmask := bitmask, pending := w.pending.erase seq }

/-- `ReplayWindow.is_replay`: returns the verdict (`true` = replay) together
with the updated window state (the newer-packet branch mutates the window).
The last two branches of the older-packet arm mirror the source and are
both unreachable: `pending` was already tested first, and the set-bit case
already returned `True`. -/
def ReplayWindow.is_replay (w : ReplayWindow) (seq : Nat) :
    Bool × ReplayWindow :=
  if seq ∈ w.pending then
    (false, w)
  else
    let diff := ((seq : Int) - w.latest_seq) % 256
    if diff = 0 then
      (true, w)
    else if diff < 128 then
      let bitmask :=
        if (w.window_size : Int) ≤ diff then 1
        else (w.bitmask <<< diff.toNat) ||| 1
      (false, { w with bitmask := bitmask, latest_seq := (seq : Int),
                       pending := seq :: w.pending })
    else
      let offset := (w.latest_seq - (seq : Int)) % 256
      if (w.window_size : Int) ≤ offset then
        (true, w)
      else if (w.bitmask >>> offset.toNat) &&& 1 = 1 then
        (true, w)
      else if seq ∈ w.pending then
        (false, w)
      else if offset < (w.window_size : Int) ∧
          (w.bitmask >>> offset.toNat) &&& 1 = 1 then
        (false, w)
      else
        (true, w)

/-- A protocol packet (`Packet.__init__` in `protocol.py`): type, sequence
number and plaintext payload. The encrypted payload, the checksum and the
wire encoding are derived from these fields (the `timestamp` field is not
modelled; nothing in the claims depends on it). -/
structure Packet where
  packet_type : Nat
  sequence_num : Nat
  payload : List Nat
  deriving Repr, DecidableEq

/-- `self.encrypted_payload = encrypt_payload(payload, sequence_num)`. -/
def Packet.encrypted_payload (ks : Keystream) (p : Packet) : List Nat :=
  encrypt_payload ks p.payload p.sequence_num

/-- `Packet._calculate_checksum`: byte sum of the header packed with a zero
checksum placeholder (`!BBHH` big-endian: type, seq, 0, payload_len)
concatenated with the encrypted payload, modulo 65536. -/
def Packet.checksum (ks : Keystream) (p : Packet) : Nat :=
  let enc := p.encrypted_payload ks
  (p.packet_type + p.sequence_num + 0 + 0 + enc.length / 256 +
      enc.length % 256 + enc.sum) % 65536

/-- The wire bytes produced by `Packet.pack`: `[type][seq][checksum hi]
[checksum lo][len hi][len lo][encrypted payload]` (big-endian `!BBHH`
header). -/
def Packet.wire (ks : Keystream) (p : Packet) : List Nat :=
  p.packet_type :: p.sequence_num ::
    p.checksum ks / 256 :: p.checksum ks % 256 ::
    (p.encrypted_payload ks).length / 256 ::
    (p.encrypted_payload ks).length % 256 :: p.encrypted_payload ks

/-- `Packet.pack`. `struct.pack("!BBHH", ...)` raises on out-of-range
fields, modelled by returning `none` (the checksum is `< 65536` by
construction and needs no guard). -/
def Packet.pack (ks : Keystream) (p : Packet) : Option (List Nat) :=
  if p.packet_type ≤ 255 ∧ p.sequence_num ≤ 255 ∧
      (p.encrypted_payload ks).length ≤ 65535 then
    some (p.wire ks)
  else
    none

/-- `Packet.unpack`: reject data shorter than the 6-byte header, parse the
header, reject a short payload, decrypt, rebuild a packet from the decrypted
payload and compare its recomputed checksum with the received one. -/
def Packet.unpack (ks : Keystream) (data : List Nat) : Option Packet :=
  match data with
  | t :: s :: c1 :: c2 :: l1 :: l2 :: rest =>
    let received_checksum := c1 * 256 + c2
    let payload_len := l1 * 256 + l2
    if rest.length < payload_len then
      none
    else
      let encrypted_payload := rest.take payload_len
      let payload := decrypt_payload ks encrypted_payload s
      let temp : Packet := ⟨t, s, payload⟩
      if temp.checksum ks = received_checksum then some temp else none
  | _ => none

/-- An operation on a `ReplayWindow`: a `check` (an `is_replay` call made by
`safe_recv` on a received sequence number) or an `ack` (a
`mark_acknowledged` call). -/
inductive RWEvent where
  | check (seq : Nat)
  | ack (seq : Nat)
  deriving Repr, DecidableEq

/-- One replay-window operation: `check` runs `is_replay` (keeping its state
update), `ack` runs `mark_acknowledged`. -/
def rwStep (w : ReplayWindow) : RWEvent → ReplayWindow
  | .check s => (w.is_replay s).2
  | .ack s => w.mark_acknowledged s

/-- Run a sequence of replay-window operations from a starting state. -/
def runRW (w : ReplayWindow) (tr : List RWEvent) : ReplayWindow :=
  tr.foldl rwStep w

/-- Formalization of the claim wording: the event at index `i` of the trace
is a `check` that the window (in the state reached by the prefix) accepted,
i.e. `is_replay` returned not-replay there. -/
def acceptedAt (w0 : ReplayWindow) (tr : List RWEvent) (i : Nat) : Bool :=
  match tr[i]? with
  | some (.check s) => !((runRW w0 (tr.take i)).is_replay s).1
  | _ => false

/-- Formalization of the claim wording: the event at index `i` is a `check`
accepted through the newer-packet branch (it was not an in-flight
retransmission of a pending sequence), so it advanced the window. -/
def newerAcceptAt (w0 : ReplayWindow) (tr : List RWEvent) (i : Nat) : Bool :=
  match tr[i]? with
  | some (.check s) =>
    let w := runRW w0 (tr.take i)
    !(w.is_replay s).1 && !(decide (s ∈ w.pending))
  | _ => false

/-- Remove duplicates from a list of sequence numbers. -/
def dedupSeqs : List Nat → List Nat
  | [] => []
  | x :: xs => if x ∈ dedupSeqs xs then dedupSeqs xs else x :: dedupSeqs xs

/-- The distinct sequence numbers accepted as newer packets at positions
`≥ start` of the trace. -/
def newerAcceptedSeqs (w0 : ReplayWindow) (tr : List RWEvent) (start : Nat) :
    List Nat :=
  dedupSeqs
    (((List.range tr.length).filter
        (fun i => decide (start ≤ i) && newerAcceptAt w0 tr i)).filterMap
      (fun i =>
        match tr[i]? with
        | some (RWEvent.check s) => some s
        | _ => none))

/-- Formalization of the claim wording "`s` has been previously accepted and
acknowledged within the last `n` distinct newer sequences": some `ack s`
event in the trace follows an accepted `check s`, and after that `ack` fewer
than `n` distinct newer sequence numbers were accepted. -/
def prevAckedWithinWindow (w0 : ReplayWindow) (tr : List RWEvent) (s n : Nat) :
    Bool :=
  (List.range tr.length).any fun j =>
    (match tr[j]? with
      | some (.ack t) => t == s
      | _ => false) &&
    ((List.range j).any fun i =>
      (match tr[i]? with
        | some (.check t) => t == s
        | _ => false) && acceptedAt w0 tr i) &&
    decide ((newerAcceptedSeqs w0 tr (j + 1)).length < n)

/-- The module-global mutable state of `protocol.py` that `safe_send` and
`request_retransmission` touch: the `_sequence_num` counter and the key set
of the global `sent_packets` dict (one dict shared by all peers; the dict
values — the stored packets — do not matter for the size claims). -/
structure SentState where
  sequence_num : Nat
  sent_packets : Finset Nat
  deriving DecidableEq

/-- The operations of `protocol.py` that change `sent_packets` or the
sequence counter. `sendStrictOk` is a `safe_send` of a `PLAYER_MOVE` or
turn-transition message whose ACK arrived: it allocates a sequence number
and stores the packet, and returns without any pruning. `sendPruned` is
every other way a `safe_send` returns (non-strict success or any failure
path): it allocates, stores, and then runs the pruning loop that deletes
every entry more than `replay_window.window_size = 64` behind the packet
just sent. `retxRequest` is `request_retransmission`, which allocates a
sequence number but stores nothing. No operation removes an entry on ACK
receipt: the code has no such deletion. -/
inductive SendEvent where
  | sendStrictOk
  | sendPruned
  | retxRequest
  deriving Repr, DecidableEq

/-- `for seq in list(sent_packets): if (packet.sequence_num - seq) % 256 >
replay_window.window_size: del sent_packets[seq]` — keep exactly the keys
at offset at most 64 behind `cur`. -/
def pruneSent (cur : Nat) (t : Finset Nat) : Finset Nat :=
  t.filter (fun s => ((cur : Int) - (s : Int)) % 256 ≤ 64)

/-- Effect of one operation on the global state. -/
def sendStep (st : SentState) : SendEvent → SentState
  | .sendStrictOk =>
    let seq := (st.sequence_num + 1) % 256
    { sequence_num := seq, sent_packets := insert seq st.sent_packets }
  | .sendPruned =>
    let seq := (st.sequence_num + 1) % 256
    { sequence_num := seq,
      sent_packets := pruneSent seq (insert seq st.sent_packets) }
  | .retxRequest =>
    { st with sequence_num := (st.sequence_num + 1) % 256 }

/-- Run a sequence of send operations from the initial module state
(`_sequence_num = 0`, `sent_packets = {}`). -/
def runSent (tr : List SendEvent) : SentState :=
  tr.foldl sendStep ⟨0, ∅⟩

/-- A Python `message` argument of `safe_send`: either a `str` or a `bytes`
object (`isinstance(message, str)` distinguishes them). -/
inductive PyMessage where
  | str (s : String)
  | bytes (b : List Nat)
  deriving Repr, DecidableEq

/-- `message.encode("utf-8")` for a `str`, modelled on code points; it
coincides with UTF-8 for the ASCII messages appearing in the theorems. -/
def strBytes (s : String) : List Nat :=
  s.toList.map Char.toNat

/-- The bytes payload of a message (`str` messages are UTF-8 encoded). -/
def messageBytes : PyMessage → List Nat
  | .str s => strBytes s
  | .bytes b => b

/-- The apostrophe character (avoids a literal quote in string syntax). -/
def apos : Char := Char.ofNat 39

/-- The well-known substring `It's your turn`. -/
def turnSubstr1 : String := "It" ++ String.mk [apos] ++ "s your turn"

/-- The well-known substring `Waiting for Player`. -/
def turnSubstr2 : String := "Waiting for Player"

/-- `startsWithSeq pat l`: `pat` is a prefix of `l`. -/
def startsWithSeq {α : Type} [DecidableEq α] : List α → List α → Bool
  | [], _ => true
  | _ :: _, [] => false
  | a :: pat, b :: l => decide (a = b) && startsWithSeq pat l

/-- `containsSeq pat l`: the Python `in` test — `pat` occurs contiguously
inside `l`. -/
def containsSeq {α : Type} [DecidableEq α] (pat : List α) : List α → Bool
  | [] => pat.isEmpty
  | b :: l => startsWithSeq pat (b :: l) || containsSeq pat l

/-- The turn-transition test of `safe_send`: `isinstance(message, str) and
("It's your turn" in message or "Waiting for Player" in message)`. A
`bytes` message never satisfies it. -/
def isTurnTransitionStr : PyMessage → Bool
  | .str s =>
    containsSeq turnSubstr1.toList s.toList ||
      containsSeq turnSubstr2.toList s.toList
  | .bytes _ => false

/-- Spec-side reading of "a message containing the substrings" from the
claim, with no restriction to `str` messages: a `bytes` message may also
contain the byte sequence of a well-known substring. -/
def messageContainsTurnSubstr : PyMessage → Bool
  | .str s =>
    containsSeq turnSubstr1.toList s.toList ||
      containsSeq turnSubstr2.toList s.toList
  | .bytes b =>
    containsSeq (strBytes turnSubstr1) b || containsSeq (strBytes turnSubstr2) b

/-- The observable sending behaviour of one `safe_send` call: the frames
written to the peer (`wfile.write(packed_data)`), the timeouts (in
milliseconds) passed to the successive `wait_for_ack` calls, the
`time.sleep` delays (in milliseconds) performed, and the returned Boolean.
The `sent_packets` bookkeeping is modelled separately by `SendEvent`. -/
structure SendBehavior where
  writes : List (List Nat)
  waits : List Nat
  delays : List Nat
  ok : Bool
  deriving Repr, DecidableEq

/-- The retry loop of `safe_send` (`while attempt < MAX_RETRIES`): each
attempt re-sends the same `packed_data`, waits for the ACK with timeout
0.5 s, returns on success after a 50 ms sleep, otherwise sleeps the 50 ms
`RETRY_DELAY` and tries again; when the attempts are exhausted it returns
`False`. `ack i` abstracts the outcome of `wait_for_ack` on attempt `i`. -/
def retryAttempts (packed : List Nat) (ack : Nat → Bool) :
    Nat → Nat → SendBehavior
  | _, 0 => ⟨[], [], [], false⟩
  | attempt, fuel + 1 =>
    if ack attempt then
      ⟨[packed], [500], [50], true⟩
    else
      let rest := retryAttempts packed ack (attempt + 1) fuel
      ⟨packed :: rest.writes, 500 :: rest.waits, 50 :: rest.delays, rest.ok⟩

/-- The `safe_send` of `protocol.py`, as its observable sending behaviour.
`sequence_num` is the value `next_sequence_num()` returned for this call.
Branching follows the source: a `PLAYER_MOVE` packet is written once and
waits 1.0 s for its ACK (50 ms sleep on success); a `str` message
containing a well-known turn-transition substring is written once and waits
1.0 s (100 ms sleep on success); every other call runs the
`MAX_RETRIES`-attempt retry loop with 0.5 s waits and 50 ms delays. -/
def safe_send (ks : Keystream) (packet_type sequence_num : Nat)
    (message : PyMessage) (ack : Nat → Bool) : SendBehavior :=
  let packet : Packet := ⟨packet_type, sequence_num, messageBytes message⟩
  let packed := packet.wire ks
  if packet_type = PLAYER_MOVE then
    if ack 0 then ⟨[packed], [1000], [50], true⟩
    else ⟨[packed], [1000], [], false⟩
  else if isTurnTransitionStr message then
    if ack 0 then ⟨[packed], [1000], [100], true⟩
    else ⟨[packed], [1000], [], false⟩
  else
    retryAttempts packed ack 0 MAX_RETRIES

/-- `payload.decode("utf-8")`, modelled on its ASCII fragment (every
payload appearing in a theorem is ASCII); a decode failure raises
`UnicodeDecodeError`, which the enclosing handler turns into `None`. -/
def utf8DecodeAscii (bs : List Nat) : Option (List Nat) :=
  if bs.all (· < 128) then some bs else none

/-- Everything one `safe_recv` call does that is visible to its caller and
its peer: the value returned (`None` or the decoded payload), the sequence
number ACKed (if `send_ack` ran), the sequence number for which a
retransmission was requested (if `request_retransmission` ran), the stored
frame retransmitted in answer to a replayed `RETRANSMISSION_REQUEST` (if
any), and the replay-window state afterwards. -/
structure RecvResult where
  result : Option (List Nat)
  acked : Option Nat
  retx_requested : Option Nat
  retransmitted : Option (List Nat)
  window : ReplayWindow
  deriving Repr, DecidableEq

/-- `safe_recv` of `protocol.py`, on a call where `select` reported data and
`stream` is the byte sequence the socket delivers. `sent` is the global
`sent_packets` dict (sequence number to stored packet). Control flow
mirrors the source: short header returns `None`; an `ACK` header returns
`None` before reading any payload; a short payload returns `None`; a failed
`Packet.unpack` requests retransmission of the observed header sequence
number and returns `None`; then `is_replay` runs (mutating the window on
acceptance), and — as in the source — its `return None` is reached only in
the `RETRANSMISSION_REQUEST` branch, so a replayed data packet falls
through to `send_ack` and to the final `return packet.payload.decode()`.
The payload-short test is `if not payload or len(payload) < payload_len`,
so an empty payload read is itself treated as a failure. -/
def safe_recv (ks : Keystream) (w : ReplayWindow) (sent : Nat → Option Packet)
    (stream : List Nat) : RecvResult :=
  let header := stream.take 6
  if header.length < 6 then
    ⟨none, none, none, none, w⟩
  else
    match header with
    | [packet_type, sequence_num, _c1, _c2, l1, l2] =>
      if packet_type = ACK then
        ⟨none, none, none, none, w⟩
      else
        let payload_len := l1 * 256 + l2
        let payload := (stream.drop 6).take payload_len
        if payload.length = 0 ∨ payload.length < payload_len then
          ⟨none, none, none, none, w⟩
        else
          match Packet.unpack ks (header ++ payload) with
          | none => ⟨none, none, some sequence_num, none, w⟩
          | some packet =>
            let rep := w.is_replay packet.sequence_num
            if rep.1 then
              if packet.packet_type = RETRANSMISSION_REQUEST then
                match packet.payload with
                | missing :: _ =>
                  match sent missing with
                  | some retry_packet =>
                    ⟨none, none, none, some (retry_packet.wire ks), rep.2⟩
                  | none => ⟨none, none, none, none, rep.2⟩
                | [] => ⟨none, none, none, none, rep.2⟩
              else
                ⟨utf8DecodeAscii packet.payload, some packet.sequence_num,
                  none, none, rep.2⟩
            else
              ⟨utf8DecodeAscii packet.payload, some packet.sequence_num,
                none, none, rep.2⟩
    | _ => ⟨none, none, none, none, w⟩

/-- A placed ship from `battleship.py`: its name and its remaining (not yet
hit) occupied positions (`fire_at` removes positions as they are hit). -/
structure Ship where
  name : String
  positions : List (Nat × Nat)
  deriving Repr, DecidableEq

/-- A `Board` from `battleship.py`: the hidden grid (ships `S`, hits `X`,
misses `o`, water `.`), the display grid (no `S`), and the placed ships. -/
structure Board where
  size : Nat
  hidden_grid : List (List Char)
  display_grid : List (List Char)
  placed_ships : List Ship
  deriving Repr, DecidableEq

/-- `Board.__init__(size=10)`: water everywhere, no ships placed. -/
def Board.init (size : Nat := 10) : Board :=
  { size := size
    hidden_grid := List.replicate size (List.replicate size '.')
    display_grid := List.replicate size (List.replicate size '.')
    placed_ships := [] }

/-- `grid[r][c]`. Out-of-bounds access raises `IndexError` in Python; the
claims only evaluate in-bounds cells, where `getD` agrees. -/
def getCell (grid : List (List Char)) (r c : Nat) : Char :=
  (grid.getD r []).getD c ' '

/-- `grid[r][c] = ch`. -/
def setCell (grid : List (List Char)) (r c : Nat) (ch : Char) :
    List (List Char) :=
  grid.set r ((grid.getD r []).set c ch)

/-- `Board.is_spot_hit`: the hidden cell was already revealed as a hit or
miss. -/
def Board.is_spot_hit (b : Board) (r c : Nat) : Bool :=
  getCell b.hidden_grid r c = 'X' || getCell b.hidden_grid r c = 'o'

/-- `Board._mark_hit_and_check_sunk`: remove `(r, c)` from the first ship
containing it (then stop, as the Python loop `break`s); report the ship
name when its positions become empty. -/
def mark_hit_and_check_sunk (r c : Nat) :
    List Ship → List Ship × Option String
  | [] => ([], none)
  | ship :: rest =>
    if (r, c) ∈ ship.positions then
      let positions := ship.positions.erase (r, c)
      ({ ship with positions := positions } :: rest,
        if positions.length = 0 then some ship.name else none)
    else
      let t := mark_hit_and_check_sunk r c rest
      (ship :: t.1, t.2)

/-- `Board.fire_at`: resolve a shot at `(r, c)`, returning the outcome
string, the sunk ship name (if any) and the updated board. -/
def Board.fire_at (b : Board) (r c : Nat) :
    (String × Option String) × Board :=
  let cell := getCell b.hidden_grid r c
  if cell = 'S' then
    let t := mark_hit_and_check_sunk r c b.placed_ships
    let b' : Board :=
      { b with hidden_grid := setCell b.hidden_grid r c 'X'
               display_grid := setCell b.display_grid r c 'X'
               placed_ships := t.1 }
    match t.2 with
    | some sunk_name => (("hit", some sunk_name), b')
    | none => (("hit", none), b')
  else if cell = '.' then
    (("miss", none),
      { b with hidden_grid := setCell b.hidden_grid r c 'o'
               display_grid := setCell b.display_grid r c 'o' })
  else if cell = 'X' ∨ cell = 'o' then
    (("already_shot", none), b)
  else
    (("already_shot", none), b)

/-- `Board.all_ships_sunk`: no ship has any position left. -/
def Board.all_ships_sunk (b : Board) : Bool :=
  b.placed_ships.all (fun ship => ship.positions.length = 0)

/-- Python `int()` restricted to unsigned decimal digit strings — the only
shape a board coordinate's column part can take (`int()` also accepts
signs, surrounding whitespace and underscores, which no theorem here
exercises). -/
def parseDigits (cs : List Char) : Option Nat :=
  if cs ≠ [] ∧ cs.all Char.isDigit then
    some (cs.foldl (fun n c => n * 10 + (c.toNat - 48)) 0)
  else
    none

/-- Python `str.strip()` on a character list: drop whitespace from both
ends. -/
def pyStrip (cs : List Char) : List Char :=
  ((cs.dropWhile Char.isWhitespace).reverse.dropWhile Char.isWhitespace).reverse

/-- Python `str.upper()` on one character, ASCII fragment (no coordinate
string contains non-ASCII letters). -/
def pyUpperChar (c : Char) : Char :=
  if 'a' ≤ c ∧ c ≤ 'z' then Char.ofNat (c.toNat - 32) else c

/-- `parse_coordinate` from `battleship.py`: strip and upcase, require 2-3
characters, row letter `A..J`, numeric column `1..10`; zero-based result.
The error messages carry the same `[TIP]` prefixes as the source (texts
abbreviated). -/
def parse_coordinate (coord_str : String) : Except String (Nat × Nat) :=
  let cs := (pyStrip coord_str.toList).map pyUpperChar
  if ¬(2 ≤ cs.length ∧ cs.length ≤ 3) then
    .error "[TIP] Invalid move. Coordinate must be 2 or 3 characters"
  else
    match cs with
    | row_letter :: col_digits =>
      if ¬('A' ≤ row_letter ∧ row_letter ≤ 'J') then
        .error "[TIP] Invalid move. Row must be within A-J"
      else
        match parseDigits col_digits with
        | none => .error "[TIP] Invalid move. Column must be a number"
        | some col_num =>
          if ¬(1 ≤ col_num ∧ col_num ≤ 10) then
            .error "[TIP] Invalid move. Column must be within 1-10"
          else
            .ok (row_letter.toNat - 65, col_num - 1)
    | [] => .error "[TIP] Invalid move. Coordinate must be 2 or 3 characters"

/-- The canonical text of the board coordinate `(r, c)`: row letter then
one-based column number (e.g. `formatCoord 0 0 = "A1"`). -/
def formatCoord (r c : Nat) : String :=
  String.mk [Char.ofNat (65 + r)] ++ toString (c + 1)

/-- The input-processing loop of `handle_input_during_turn` in
`battleship.py`, against the opponent board `opp`. Each list entry is one
`recv_from_player` outcome (`none` = no data this tick); the remaining time
budget is the list length, so an exhausted list is the expired move timer.
An unparsable coordinate or an already-shot cell sends an `[INFO]` notice
and `continue`s; a fresh valid coordinate is returned; timer expiry returns
`none`. -/
def handle_input_during_turn (opp : Board) :
    List (Option String) → Option (Nat × Nat)
  | [] => none
  | none :: rest => handle_input_during_turn opp rest
  | some input :: rest =>
    match parse_coordinate input with
    | .error _ => handle_input_during_turn opp rest
    | .ok (r, c) =>
      if opp.is_spot_hit r c then handle_input_during_turn opp rest
      else some (r, c)

/-- Outcome of one turn of the gameplay loop in
`run_multiplayer_game_online`: either the game ends with a winner, or play
passes to `player` (`next current_player` when the turn was not consumed). -/
inductive TurnOutcome where
  | gameOver (winner : Nat)
  | next (player : Nat)
  deriving Repr, DecidableEq

/-- One iteration of the gameplay loop for `current_player` firing at the
opponent board `opp`: a `handle_input_during_turn` timeout switches turns;
otherwise `fire_at` resolves — a hit that sinks the last ship ends the
game, hit or miss passes the turn, and `already_shot` keeps the turn with
the same player (the source `continue`s). -/
def turn_step (current_player : Nat) (opp : Board)
    (inputs : List (Option String)) : TurnOutcome × Board :=
  match handle_input_during_turn opp inputs with
  | none => (.next (1 - current_player), opp)
  | some (r, c) =>
    let res := opp.fire_at r c
    if res.1.1 = "hit" then
      if res.2.all_ships_sunk then (.gameOver current_player, res.2)
      else (.next (1 - current_player), res.2)
    else if res.1.1 = "miss" then (.next (1 - current_player), res.2)
    else (.next current_player, res.2)

/-! ## Helper lemmas -/

theorem retryAttempts_spec (packed : List Nat) (ack : Nat → Bool) :
    ∀ (fuel attempt : Nat),
      (retryAttempts packed ack attempt fuel).writes.length ≤ fuel ∧
      (retryAttempts packed ack attempt fuel).writes.all
        (· == packed) = true ∧
      (retryAttempts packed ack attempt fuel).waits.all (· == 500) = true ∧
      (retryAttempts packed ack attempt fuel).delays.all (· == 50) = true ∧
      ((∀ i, ack i = false) →
        (retryAttempts packed ack attempt fuel).ok = false ∧
        (retryAttempts packed ack attempt fuel).writes.length = fuel) := by
  intro fuel
  induction fuel with
  | zero =>
    intro attempt
    refine ⟨by simp [retryAttempts], by simp [retryAttempts],
      by simp [retryAttempts], by simp [retryAttempts], ?_⟩
    intro _
    exact ⟨rfl, rfl⟩
  | succ n ih =>
    intro attempt
    by_cases h : ack attempt
    · refine ⟨?_, ?_, ?_, ?_, ?_⟩
      · simp [retryAttempts, h]
      · simp [retryAttempts, h]
      · simp [retryAttempts, h]
      · simp [retryAttempts, h]
      · intro hall
        rw [hall attempt] at h
        exact absurd h (by simp)
    · rw [Bool.not_eq_true] at h
      have hrec := ih (attempt + 1)
      refine ⟨?_, ?_, ?_, ?_, ?_⟩
      · have h1 := hrec.1
        simp [retryAttempts, h]
        omega
      · have h2 := hrec.2.1
        simp [retryAttempts, h, h2]
      · have h3 := hrec.2.2.1
        simp [retryAttempts, h, h3]
      · have h4 := hrec.2.2.2.1
        simp [retryAttempts, h, h4]
      · intro hall
        have h5 := hrec.2.2.2.2 hall
        simp [retryAttempts, h, h5.1, h5.2]

theorem foldl_sendStep_subset_range :
    ∀ (tr : List SendEvent) (st : SentState),
      st.sent_packets ⊆ Finset.range 256 →
      (tr.foldl sendStep st).sent_packets ⊆ Finset.range 256 := by
  intro tr
  induction tr with
  | nil => intro st h; exact h
  | cons e tr ih =>
    intro st h
    refine ih _ ?_
    cases e with
    | sendStrictOk =>
      exact Finset.insert_subset
        (Finset.mem_range.2 (Nat.mod_lt _ (by norm_num))) h
    | sendPruned =>
      exact (Finset.filter_subset _ _).trans
        (Finset.insert_subset
          (Finset.mem_range.2 (Nat.mod_lt _ (by norm_num))) h)
    | retxRequest => exact h

theorem pruneSent_card_le (cur : Nat) (t : Finset Nat)
    (ht : t ⊆ Finset.range 256) :
    (pruneSent cur t).card ≤ 65 := by
  have hmaps : ∀ a ∈ pruneSent cur t,
      (((cur : Int) - (a : Int)) % 256).toNat ∈ Finset.range 65 := by
    intro a ha
    have hp := (Finset.mem_filter.1 ha).2
    have h0 : (0 : Int) ≤ ((cur : Int) - (a : Int)) % 256 := by omega
    exact Finset.mem_range.2 (by omega)
  have hinj : Set.InjOn
      (fun a : Nat => (((cur : Int) - (a : Int)) % 256).toNat)
      (pruneSent cur t) := by
    intro a ha b hb hab
    have ha' : a < 256 :=
      Finset.mem_range.1 (ht (Finset.mem_filter.1 (Finset.mem_coe.1 ha)).1)
    have hb' : b < 256 :=
      Finset.mem_range.1 (ht (Finset.mem_filter.1 (Finset.mem_coe.1 hb)).1)
    simp only at hab
    omega
  calc (pruneSent cur t).card ≤ (Finset.range 65).card :=
        Finset.card_le_card_of_injOn _ hmaps hinj
    _ = 65 := Finset.card_range 65

theorem ctrXor_length (ks : Keystream) (s : Nat) :
    ∀ (i : Nat) (bs : List Nat), (ctrXor ks s i bs).length = bs.length := by
  intro i bs
  induction bs generalizing i with
  | nil => rfl
  | cons b rest ih => simp [ctrXor, ih]

theorem ctrXor_ctrXor (ks : Keystream) (s : Nat) :
    ∀ (i : Nat) (bs : List Nat), ctrXor ks s i (ctrXor ks s i bs) = bs := by
  intro i bs
  induction bs generalizing i with
  | nil => rfl
  | cons b rest ih =>
    simp only [ctrXor, Nat.xor_cancel_right, ih]

/-! ## Claim theorems -/

/-- Claim C8: for every byte string and every 8-bit sequence number `s`,
`encrypt_payload` and `decrypt_payload` are mutually inverse at the same
`s`, and the output always has the same length as the input. -/
theorem encrypt_decrypt_mutual_inverse (ks : Keystream) (s : Nat)
    (_hs : s < 256) (p c : List Nat)
    (_hp : ∀ b ∈ p, b < 256) (_hc : ∀ b ∈ c, b < 256) :
    decrypt_payload ks (encrypt_payload ks p s) s = p ∧
    encrypt_payload ks (decrypt_payload ks c s) s = c ∧
    (encrypt_payload ks p s).length = p.length ∧
    (decrypt_payload ks c s).length = c.length := by
  refine ⟨?_, ?_, ?_, ?_⟩
  · exact ctrXor_ctrXor ks s 0 p
  · exact ctrXor_ctrXor ks s 0 c
  · exact ctrXor_length ks s 0 p
  · exact ctrXor_length ks s 0 c

theorem encrypt_decrypt_mutual_inverse_witness :
    (7 : Nat) < 256 ∧
    decrypt_payload (fun _ _ => 90) (encrypt_payload (fun _ _ => 90) [72, 105, 33] 7) 7
      = [72, 105, 33] := by
  refine ⟨by decide, ?_⟩
  exact (encrypt_decrypt_mutual_inverse (fun _ _ => 90) 7 (by decide)
    [72, 105, 33] [200, 0] (by decide) (by decide)).1

/-- Claim C3: for every valid packet (kind in the defined packet-type range
1..8, 8-bit sequence number, payload of at most 65535 bytes), packing
succeeds and unpacking the wire bytes yields the same packet back — same
kind, sequence number and plaintext payload — with the recomputed checksum
matching the transmitted one (otherwise `unpack` would return `none`). -/
theorem packet_pack_unpack_roundtrip (ks : Keystream) (p : Packet)
    (htype : 1 ≤ p.packet_type ∧ p.packet_type ≤ 8)
    (hseq : p.sequence_num < 256)
    (hlen : p.payload.length ≤ 65535) :
    ∃ w, p.pack ks = some w ∧ Packet.unpack ks w = some p := by
  have hL : (p.encrypted_payload ks).length = p.payload.length :=
    ctrXor_length ks p.sequence_num 0 p.payload
  have hcond : p.packet_type ≤ 255 ∧ p.sequence_num ≤ 255 ∧
      (p.encrypted_payload ks).length ≤ 65535 :=
    ⟨by omega, by omega, by omega⟩
  refine ⟨_, by unfold Packet.pack; rw [if_pos hcond], ?_⟩
  have hck : p.checksum ks / 256 * 256 + p.checksum ks % 256 =
      p.checksum ks := by omega
  have hlen2 : (p.encrypted_payload ks).length / 256 * 256 +
      (p.encrypted_payload ks).length % 256 =
      (p.encrypted_payload ks).length := by omega
  have hdec : decrypt_payload ks (p.encrypted_payload ks) p.sequence_num =
      p.payload :=
    ctrXor_ctrXor ks p.sequence_num 0 p.payload
  simp only [Packet.wire, Packet.unpack, hck, hlen2, lt_irrefl, if_false,
    List.take_length, hdec]
  simp

theorem packet_pack_unpack_roundtrip_witness :
    (1 ≤ SYSTEM_MESSAGE ∧ SYSTEM_MESSAGE ≤ 8) ∧
    ∃ w, Packet.pack (fun _ _ => 0) ⟨SYSTEM_MESSAGE, 9, [104, 105]⟩ = some w ∧
      Packet.unpack (fun _ _ => 0) w = some ⟨SYSTEM_MESSAGE, 9, [104, 105]⟩ := by
  refine ⟨by decide, ?_⟩
  exact packet_pack_unpack_roundtrip (fun _ _ => 0) ⟨SYSTEM_MESSAGE, 9, [104, 105]⟩
    (by decide) (by decide) (by decide)

/-- Claim C9: on a freshly constructed `ReplayWindow` (latest_seq `-1`,
empty bitmask and pending set), the very first `is_replay s` returns
not-replay for every `s` in `0..126` but classifies every `s` in `127..255`
as a replay, although no packet has ever been seen. -/
theorem fresh_window_first_is_replay :
    ∀ s : Fin 256, ((ReplayWindow.init 64).is_replay s.val).1
      = decide (127 ≤ s.val) := by
  decide

/-- Claim C4, counterexample: the claim "every sequence accepted by
`is_replay` has not been previously accepted and acknowledged within the
last 64 distinct newer sequences" is false. In the reachable state after
`check 10` (accepted), `ack 10`, `check 110` (accepted), `check 139`
(accepted), the call `is_replay 10` accepts 10 again — `(10 - 139) % 256 =
127 < 128` makes the already-acknowledged 10 look like a newer packet —
although only the two distinct newer sequences 110 and 139 were accepted
after 10 was acknowledged. -/
theorem replay_window_ack_guarantee_counterexample :
    ((runRW (ReplayWindow.init 64)
        [.check 10, .ack 10, .check 110, .check 139]).is_replay 10).1 = false ∧
    prevAckedWithinWindow (ReplayWindow.init 64)
        [.check 10, .ack 10, .check 110, .check 139] 10 64 = true := by
  decide

/-- Claim C4, amended: for every replay-window state and every sequence `s`
that is not an in-flight pending retransmission, if the window has not
advanced more than 128 values past `s` (mod 256) — in particular whenever
`s` lies within the last `REPLAY_WINDOW = 64` sequence values — then
`is_replay` classifies `s` as a replay. Hence a previously
accepted-and-acknowledged non-pending `s` can only be re-accepted after the
window has advanced at least 129 values past it, which (as the
counterexample shows) as few as two distinct newer acceptances can
achieve. -/
theorem replay_window_rejects_recent_nonpending (w : ReplayWindow) (s : Nat)
    (hpend : s ∉ w.pending)
    (hoff : (w.latest_seq - (s : Int)) % 256 < 128) :
    (w.is_replay s).1 = true := by
  by_cases h0 : ((s : Int) - w.latest_seq) % 256 = 0
  · simp only [ReplayWindow.is_replay]
    rw [if_neg hpend, if_pos h0]
  · have hge : ¬ ((s : Int) - w.latest_seq) % 256 < 128 := by omega
    simp only [ReplayWindow.is_replay]
    rw [if_neg hpend, if_neg h0, if_neg hge]
    by_cases h1 : (w.window_size : Int) ≤ (w.latest_seq - (s : Int)) % 256
    · rw [if_pos h1]
    · rw [if_neg h1]
      by_cases h2 :
          (w.bitmask >>> ((w.latest_seq - (s : Int)) % 256).toNat) &&& 1 = 1
      · rw [if_pos h2]
      · rw [if_neg h2, if_neg hpend, if_neg (fun hc => h2 hc.2)]

theorem replay_window_rejects_recent_nonpending_witness :
    (3 ∉ (runRW (ReplayWindow.init 64) [.check 5, .ack 5]).pending) ∧
    ((runRW (ReplayWindow.init 64) [.check 5, .ack 5]).latest_seq
        - (3 : Int)) % 256 < 128 ∧
    ((runRW (ReplayWindow.init 64) [.check 5, .ack 5]).is_replay 3).1
      = true := by
  refine ⟨by decide, by decide, ?_⟩
  exact replay_window_rejects_recent_nonpending
    (runRW (ReplayWindow.init 64) [.check 5, .ack 5]) 3 (by decide) (by decide)

/-- Claim C2, counterexample: the claimed invariant `|sent_packets| ≤
REPLAY_WINDOW = 64` is false. After 65 consecutive strict sends (PLAYER_MOVE
or turn-transition messages whose ACKs arrive — a path on which `safe_send`
returns without running the pruning loop), the one global `sent_packets`
table holds 65 entries. -/
theorem sent_packets_bound_counterexample :
    64 < (runSent (List.replicate 65 SendEvent.sendStrictOk)).sent_packets.card := by
  decide

/-- Claim C2, amended: the `sent_packets` table is a single module-global
dict keyed by the 8-bit sequence number, so it never holds more than 256
entries; it grows when a send is issued, and it shrinks only through the
pruning pass run on non-strict completions and on failure paths, which
deletes every entry more than 64 sequence numbers behind the one just sent
and therefore leaves at most `REPLAY_WINDOW + 1 = 65` entries. Entries are
not removed on ACK receipt, and successful strict sends do not prune, so
the claimed per-peer bound of 64 does not hold at every point. -/
theorem sent_packets_bounds :
    (∀ tr : List SendEvent, (runSent tr).sent_packets.card ≤ 256) ∧
    (∀ tr : List SendEvent,
      (runSent (tr ++ [SendEvent.sendPruned])).sent_packets.card ≤ 65) := by
  constructor
  · intro tr
    have hsub : (runSent tr).sent_packets ⊆ Finset.range 256 :=
      foldl_sendStep_subset_range tr ⟨0, ∅⟩ (by simp)
    calc (runSent tr).sent_packets.card ≤ (Finset.range 256).card :=
          Finset.card_le_card hsub
      _ = 256 := Finset.card_range 256
  · intro tr
    have hsub : (runSent tr).sent_packets ⊆ Finset.range 256 :=
      foldl_sendStep_subset_range tr ⟨0, ∅⟩ (by simp)
    have hrun : runSent (tr ++ [SendEvent.sendPruned]) =
        sendStep (runSent tr) SendEvent.sendPruned := by
      simp [runSent, List.foldl_append]
    rw [hrun]
    exact pruneSent_card_le _ _ (Finset.insert_subset
      (Finset.mem_range.2 (Nat.mod_lt _ (by norm_num))) hsub)

/-- Claim C5, counterexample: the claim promises exactly one transmission
for every "message containing the substrings" `It's your turn` / `Waiting
for Player`, but `safe_send` applies the strict single-attempt mode only to
`str` messages (`isinstance(message, str)`): a `bytes` message consisting
of exactly the bytes of `It's your turn`, sent as `SYSTEM_MESSAGE` with no
ACK forthcoming, is transmitted twice by the retry loop. -/
theorem safe_send_strict_mode_counterexample :
    messageContainsTurnSubstr (PyMessage.bytes (strBytes turnSubstr1)) = true ∧
    (safe_send (fun _ _ => 0) SYSTEM_MESSAGE 1
        (PyMessage.bytes (strBytes turnSubstr1)) (fun _ => false)).writes.length
      = 2 ∧
    (safe_send (fun _ _ => 0) SYSTEM_MESSAGE 1
        (PyMessage.bytes (strBytes turnSubstr1)) (fun _ => false)).ok
      = false := by
  decide

/-- Claim C5, amended: `safe_send` classifies by kind — for a `PLAYER_MOVE`
packet or a **string** message containing the substrings `It's your turn` or
`Waiting for Player`, it transmits the frame exactly once and waits for the
matching ACK up to 1.0 s (1000 ms), returning failed if none arrives; for
all other calls it makes up to `MAX_RETRIES = 2` attempts, re-sending the
same encoded bytes each attempt, waiting 0.5 s (500 ms) per attempt with a
50 ms inter-attempt delay, and returns failed when every attempt goes
unacknowledged. -/
theorem safe_send_classification (ks : Keystream) (pt seq : Nat)
    (m : PyMessage) (ack : Nat → Bool) :
    ((pt = PLAYER_MOVE ∨ isTurnTransitionStr m = true) →
      (safe_send ks pt seq m ack).writes
          = [Packet.wire ks ⟨pt, seq, messageBytes m⟩] ∧
      (safe_send ks pt seq m ack).waits = [1000] ∧
      (ack 0 = false → (safe_send ks pt seq m ack).ok = false)) ∧
    (pt ≠ PLAYER_MOVE → isTurnTransitionStr m = false →
      (safe_send ks pt seq m ack).writes.length ≤ MAX_RETRIES ∧
      (safe_send ks pt seq m ack).writes.all
        (· == Packet.wire ks ⟨pt, seq, messageBytes m⟩) = true ∧
      (safe_send ks pt seq m ack).waits.all (· == 500) = true ∧
      (safe_send ks pt seq m ack).delays.all (· == 50) = true ∧
      ((∀ i, ack i = false) →
        (safe_send ks pt seq m ack).ok = false ∧
        (safe_send ks pt seq m ack).writes.length = MAX_RETRIES)) := by
  constructor
  · intro hstrict
    by_cases hpm : pt = PLAYER_MOVE
    · cases hack : ack 0 <;> simp [safe_send, hpm, hack]
    · have hturn : isTurnTransitionStr m = true := by
        rcases hstrict with h | h
        · exact absurd h hpm
        · exact h
      cases hack : ack 0 <;> simp [safe_send, hpm, hturn, hack]
  · intro hpm hturn
    simpa [safe_send, hpm, hturn] using
      retryAttempts_spec (Packet.wire ks ⟨pt, seq, messageBytes m⟩) ack
        MAX_RETRIES 0

theorem safe_send_classification_witness :
    (safe_send (fun _ _ => 0) PLAYER_MOVE 1 (PyMessage.str "B5")
        (fun _ => false)).waits = [1000] ∧
    (safe_send (fun _ _ => 0) PLAYER_MOVE 1 (PyMessage.str "B5")
        (fun _ => false)).ok = false := by
  have h := (safe_send_classification (fun _ _ => 0) PLAYER_MOVE 1
    (PyMessage.str "B5") (fun _ => false)).1 (Or.inl rfl)
  exact ⟨h.2.1, h.2.2 rfl⟩

/-- Claim C1, evaluation at the failing input: a well-formed
`SYSTEM_MESSAGE` data frame with sequence number 200 arriving on a fresh
replay window is classified a replay by `is_replay`, yet `safe_recv` does
not drop it — the `return None` of the replay branch sits inside the
`RETRANSMISSION_REQUEST` sub-branch, so the replayed data packet falls
through, is ACKed, and its decrypted payload is returned to the caller (the
window itself is left unchanged). -/
theorem safe_recv_replayed_data_delivered :
    ((ReplayWindow.init 64).is_replay 200).1 = true ∧
    (safe_recv (fun _ _ => 0) (ReplayWindow.init 64) (fun _ => none)
        (Packet.wire (fun _ _ => 0) ⟨SYSTEM_MESSAGE, 200, [104, 105]⟩)).result
      = some [104, 105] ∧
    (safe_recv (fun _ _ => 0) (ReplayWindow.init 64) (fun _ => none)
        (Packet.wire (fun _ _ => 0) ⟨SYSTEM_MESSAGE, 200, [104, 105]⟩)).acked
      = some 200 ∧
    (safe_recv (fun _ _ => 0) (ReplayWindow.init 64) (fun _ => none)
        (Packet.wire (fun _ _ => 0) ⟨SYSTEM_MESSAGE, 200, [104, 105]⟩)).window
      = ReplayWindow.init 64 := by
  decide

/-- Claim C7: `parse_coordinate` maps letters `A..J` to rows `0..9` and
numeric part `1..10` to columns `0..9` — in particular `A1 ↦ (0,0)` and
`J10 ↦ (9,9)` — while `A0`, `K1`, `A11` and the empty string each produce a
`ValueError` (`Except.error`) rather than a coordinate. -/
theorem parse_coordinate_spec :
    (∀ r : Fin 10, ∀ c : Fin 10,
      (parse_coordinate (formatCoord r.val c.val)).toOption
        = some (r.val, c.val)) ∧
    (parse_coordinate "A1").toOption = some (0, 0) ∧
    (parse_coordinate "J10").toOption = some (9, 9) ∧
    (parse_coordinate "A0").toOption = none ∧
    (parse_coordinate "K1").toOption = none ∧
    (parse_coordinate "A11").toOption = none ∧
    (parse_coordinate "").toOption = none := by
  decide

/-- Claim C10: on every board whose `placed_ships` list is empty — as after
`Board.__init__` — `all_ships_sunk()` returns `True`, so the all-sunk check
reports victory vacuously on a shipless board. -/
theorem all_ships_sunk_vacuous_on_shipless_board :
    (∀ size : Nat, (Board.init size).placed_ships = []) ∧
    (∀ b : Board, b.placed_ships = [] → b.all_ships_sunk = true) := by
  constructor
  · intro size
    rfl
  · intro b hb
    simp [Board.all_ships_sunk, hb]

theorem all_ships_sunk_vacuous_on_shipless_board_witness :
    (Board.init 10).placed_ships = [] ∧
    (Board.init 10).all_ships_sunk = true :=
  ⟨all_ships_sunk_vacuous_on_shipless_board.1 10,
    all_ships_sunk_vacuous_on_shipless_board.2 (Board.init 10)
      (all_ships_sunk_vacuous_on_shipless_board.1 10)⟩

/-- Claim C6: for every board and every cell already revealed as hit `X` or
miss `o`, `fire_at` returns `("already_shot", None)` and leaves the board
(hidden grid, display grid, placed ships) unchanged; in the turn loop an
already-shot input makes `handle_input_during_turn` re-prompt the same
player (it continues with the remaining inputs), and a turn passes to the
other player or ends the game only on a timer expiry or a resolved
(hit/miss) shot. -/
theorem fire_at_already_shot_keeps_turn (b : Board) (r c : Nat)
    (hcell : getCell b.hidden_grid r c = 'X' ∨
      getCell b.hidden_grid r c = 'o') :
    b.fire_at r c = (("already_shot", none), b) ∧
    (∀ (s : String) (rest : List (Option String)),
      parse_coordinate s = .ok (r, c) →
      handle_input_during_turn b (some s :: rest)
        = handle_input_during_turn b rest) ∧
    (∀ (p : Nat) (inputs : List (Option String)),
      (turn_step p b inputs).1 ≠ TurnOutcome.next p →
      handle_input_during_turn b inputs = none ∨
      ∃ r' c', handle_input_during_turn b inputs = some (r', c') ∧
        (b.fire_at r' c').1.1 ≠ "already_shot") := by
  have hspot : b.is_spot_hit r c = true := by
    rcases hcell with h | h <;> simp [Board.is_spot_hit, h]
  have hfire : b.fire_at r c = (("already_shot", none), b) := by
    rcases hcell with h | h <;> simp [Board.fire_at, h]
  refine ⟨hfire, ?_, ?_⟩
  · intro s rest hs
    simp [handle_input_during_turn, hs, hspot]
  · intro p inputs hne
    rcases hh : handle_input_during_turn b inputs with _ | ⟨r', c'⟩
    · exact Or.inl rfl
    · refine Or.inr ⟨r', c', rfl, ?_⟩
      intro hres
      apply hne
      simp [turn_step, hh, hres]

theorem fire_at_already_shot_keeps_turn_witness :
    (getCell (Board.mk 2 [['X', '.'], ['.', '.']]
        [['.', '.'], ['.', '.']] []).hidden_grid 0 0 = 'X' ∨
      getCell (Board.mk 2 [['X', '.'], ['.', '.']]
        [['.', '.'], ['.', '.']] []).hidden_grid 0 0 = 'o') ∧
    (Board.mk 2 [['X', '.'], ['.', '.']]
        [['.', '.'], ['.', '.']] []).fire_at 0 0
      = (("already_shot", none),
          Board.mk 2 [['X', '.'], ['.', '.']] [['.', '.'], ['.', '.']] []) ∧
    handle_input_during_turn
        (Board.mk 2 [['X', '.'], ['.', '.']] [['.', '.'], ['.', '.']] [])
        [some "A1"]
      = handle_input_during_turn
        (Board.mk 2 [['X', '.'], ['.', '.']] [['.', '.'], ['.', '.']] [])
        [] := by
  have h := fire_at_already_shot_keeps_turn
    (Board.mk 2 [['X', '.'], ['.', '.']] [['.', '.'], ['.', '.']] []) 0 0
    (Or.inl rfl)
  exact ⟨Or.inl rfl, h.1, h.2.1 "A1" [] rfl⟩

end BattleshipProto
